import Mathlib

/-!
Verification of the text-placement geometry and model schema of the
repository. The definitions below are shallow embeddings of the
functions in gaphor/diagram/text.py and of the schema registrations in
gaphor/core/modeling/coremodel.py. Coordinates and sizes are modelled
as exact rationals; control-flow failures (index errors, failed
assertions, unbound locals) are modelled by Option, with none standing
for "the call raises instead of returning".
-/

set_option maxHeartbeats 1000000

/-- Code model of the TextAlign enumeration (gaphor.core.styling): the three
members LEFT, CENTER, RIGHT. -/
inductive TextAlign
  | LEFT
  | CENTER
  | RIGHT
deriving DecidableEq, Repr

abbrev Point : Type := ℚ × ℚ

abbrev Size : Type := ℚ × ℚ

/-- Python list indexing xs[i]: nonnegative indices from the front, negative
indices wrap from the back, out of range raises IndexError (modelled none). -/
def pyIdx {α : Type} (xs : List α) (i : Int) : Option α :=
  if 0 ≤ i then xs[i.toNat]?
  else if -(xs.length : Int) ≤ i then xs[(i + xs.length).toNat]?
  else none

/-- Embedding of focus_box_pos (gaphor/diagram/text.py): anchor of a text of
size text_size inside bounding_box = (x, y, width, height), by alignment. -/
def focus_box_pos (bounding_box : ℚ × ℚ × ℚ × ℚ) (text_size : Size)
    (text_align : TextAlign) : Point :=
  let x := bounding_box.1
  let y := bounding_box.2.1
  let width := bounding_box.2.2.1
  let height := bounding_box.2.2.2
  let w := text_size.1
  let h := text_size.2
  let x :=
    if text_align = TextAlign.CENTER then x + (width - w) / 2
    else if text_align = TextAlign.RIGHT then x + (width - w)
    else x
  let y := y + (height - h) / 2
  (x, y)

/-- Embedding of middle_segment (gaphor/diagram/text.py): the middle line
segment of a polyline; the failed assert (1 <= m < len) is modelled none. -/
def middle_segment {α : Type} (points : List α) : Option (α × α) :=
  let m := points.length / 2
  if h : 1 ≤ m ∧ m < points.length then
    some (points.get ⟨m - 1, by omega⟩, points.get ⟨m, h.2⟩)
  else none

/-- Embedding of _text_point_at_line_end (gaphor/diagram/text.py): position of
a text of the given size relative to the line segment from p1 to p2, placed
near p1. -/
def _text_point_at_line_end (size : Size) (p1 p2 : Point) : Point :=
  let ofs : ℚ := 5
  let dx := p2.1 - p1.1
  let dy := p2.2 - p1.2
  let name_w := size.1
  let name_h := size.2
  let rc : ℚ := if dy = 0 then 1000 else dx / dy
  let abs_rc := |rc|
  let h : Bool := decide (dx > 0)
  let v : Bool := decide (dy > 0)
  let name_d : ℚ × ℚ :=
    if abs_rc > 6 then
      -- horizontal line
      if h then (ofs, -ofs - name_h) else (-ofs - name_w, -ofs - name_h)
    else if 0 ≤ abs_rc ∧ abs_rc ≤ 0.2 then
      -- vertical line
      if v then (-ofs - name_w, ofs) else (-ofs - name_w, -ofs - name_h)
    else
      let r : Bool := decide (abs_rc < 1)
      let align_left := xor h r
      let align_bottom := xor v r
      ((if align_left then ofs else -ofs - name_w),
       (if align_bottom then -ofs - name_h else ofs))
  (p1.1 + name_d.1, p1.2 + name_d.2)

/-- Hint tuple WIDTH_HINT from gaphor/diagram/text.py. -/
def WIDTH_HINT : List ℚ := [-1, -1, 0]

/-- Hint tuple PADDING_HINT from gaphor/diagram/text.py. -/
def PADDING_HINT : List ℚ := [1, 1, -1]

/-- EPSILON constant from gaphor/diagram/text.py. -/
def EPSILON : ℚ := 1 / 1000000

/-- Embedding of _text_point_at_line_center (gaphor/diagram/text.py):
position of a text of the given size relative to the middle of the line
from p1 to p2. The source assigns x twice in the near-vertical branch; the
shadowing let below mirrors that. -/
def _text_point_at_line_center (size : Size) (p1 p2 : Point) : Option Point :=
  let x0 := (p1.1 + p2.1) / 2
  let y0 := (p1.2 + p2.2) / 2
  let dx := p2.1 - p1.1
  let dy := p2.2 - p1.2
  let ofs : ℚ := 3
  let d : ℚ × ℚ :=
    if |dx| < EPSILON then (-1, 1)
    else if |dy| < EPSILON then (0, 0)
    else (dy / dx, |dy / dx|)
  let d1 := d.1
  let d2 := d.2
  let width := size.1
  let height := size.2
  if d2 < 0.5774 then
    -- horizontal mode
    let w2 := width / 2
    let hint := w2 * d2
    some (x0 - w2, y0 + hint + ofs)
  else
    -- vertical mode: quadrant hints, indexed the Python way
    let h2 := height / 2
    let q : Int := (if d1 > 0 then 1 else 0) - (if d1 < 0 then 1 else 0)
    let hint : ℚ := if |dx| < EPSILON then 0 else h2 / d2
    match pyIdx WIDTH_HINT q, pyIdx PADDING_HINT q with
    | some wh, some ph =>
      let x := x0 - hint + width * wh
      let x := x0 - (ofs + hint) * ph + width * wh
      some (x, y0 - h2)
    | _, _ => none

/-- Embedding of text_point_at_line (gaphor/diagram/text.py). The alignment
argument models an arbitrary Python value: some member of TextAlign, or
(none) any other value, for which all three equality tests fail and the
function raises UnboundLocalError at "return x, y" (modelled none). -/
def text_point_at_line (points : List Point) (size : Size)
    (text_align : Option TextAlign) : Option Point :=
  if text_align = some TextAlign.LEFT then
    match pyIdx points 0, pyIdx points 1 with
    | some p0, some p1 => some (_text_point_at_line_end size p0 p1)
    | _, _ => none
  else if text_align = some TextAlign.CENTER then
    match middle_segment points with
    | some pq => _text_point_at_line_center size pq.1 pq.2
    | none => none
  else if text_align = some TextAlign.RIGHT then
    match pyIdx points (-1), pyIdx points (-2) with
    | some p0, some p1 => some (_text_point_at_line_end size p0 p1)
    | _, _ => none
  else none

/-- Spec-side restatement of the endpoint placement, written from the words
of claim C1: classify rc = dx/dy (1000 when dy = 0) into three regimes and
return p1 plus the described offset. To be compared with the code embedding
_text_point_at_line_end. -/
def text_point_at_line_end_spec (size : Size) (p1 p2 : Point) : Point :=
  let w := size.1
  let h := size.2
  let dx := p2.1 - p1.1
  let dy := p2.2 - p1.2
  let rc : ℚ := if dy = 0 then 1000 else dx / dy
  let off : ℚ × ℚ :=
    if |rc| > 6 then
      if dx > 0 then (5, -5 - h) else (-5 - w, -5 - h)
    else if |rc| ≤ 0.2 then
      if dy > 0 then (-5 - w, 5) else (-5 - w, -5 - h)
    else
      let r : Bool := decide (|rc| < 1)
      let align_left := xor (decide (dx > 0)) r
      let align_bottom := xor (decide (dy > 0)) r
      ((if align_left then 5 else -5 - w),
       (if align_bottom then -5 - h else 5))
  (p1.1 + off.1, p1.2 + off.2)

/-- Slope value d1 of the center-placement classification, as the claims
describe it: -1 when the segment is near vertical, 0 when near horizontal,
dy/dx otherwise. -/
def center_d1 (p1 p2 : Point) : ℚ :=
  let dx := p2.1 - p1.1
  let dy := p2.2 - p1.2
  if |dx| < EPSILON then -1
  else if |dy| < EPSILON then 0
  else dy / dx

/-- Slope magnitude d2 of the center-placement classification, as the claims
describe it: 1 when the segment is near vertical, 0 when near horizontal,
the absolute value of dy/dx otherwise. -/
def center_d2 (p1 p2 : Point) : ℚ :=
  let dx := p2.1 - p1.1
  let dy := p2.2 - p1.2
  if |dx| < EPSILON then 1
  else if |dy| < EPSILON then 0
  else |dy / dx|

/-- The value WIDTH_HINT[q] for q in {-1, 0, 1} under Python tuple indexing
of (-1, -1, 0): -1 at 0 and 1, and 0 at -1 (the last entry). -/
def width_hint_at (q : Int) : ℚ := if q = -1 then 0 else -1

/-- The value PADDING_HINT[q] for q in {-1, 0, 1} under Python tuple indexing
of (1, 1, -1): 1 at 0 and 1, and -1 at -1 (the last entry). -/
def padding_hint_at (q : Int) : ℚ := if q = -1 then -1 else 1

/-- The slope-based hint of the near-vertical branch of
_text_point_at_line_center: 0 when the segment is near vertical, and
(height/2)/d2 otherwise. -/
def center_vertical_hint (height : ℚ) (p1 p2 : Point) : ℚ :=
  if |p2.1 - p1.1| < EPSILON then 0 else (height / 2) / center_d2 p1 p2

/-- Variant of _text_point_at_line_center with the first, overwritten
assignment of x in the near-vertical branch removed; claim C3 says this
does not change the function. -/
def _text_point_at_line_center_nofirst (size : Size) (p1 p2 : Point) :
    Option Point :=
  let x0 := (p1.1 + p2.1) / 2
  let y0 := (p1.2 + p2.2) / 2
  let dx := p2.1 - p1.1
  let dy := p2.2 - p1.2
  let ofs : ℚ := 3
  let d : ℚ × ℚ :=
    if |dx| < EPSILON then (-1, 1)
    else if |dy| < EPSILON then (0, 0)
    else (dy / dx, |dy / dx|)
  let d1 := d.1
  let d2 := d.2
  let width := size.1
  let height := size.2
  if d2 < 0.5774 then
    let w2 := width / 2
    let hint := w2 * d2
    some (x0 - w2, y0 + hint + ofs)
  else
    let h2 := height / 2
    let q : Int := (if d1 > 0 then 1 else 0) - (if d1 < 0 then 1 else 0)
    let hint : ℚ := if |dx| < EPSILON then 0 else h2 / d2
    match pyIdx WIDTH_HINT q, pyIdx PADDING_HINT q with
    | some wh, some ph =>
      some (x0 - (ofs + hint) * ph + width * wh, y0 - h2)
    | _, _ => none

/-- A Python float as the placement code sees it: a finite value (modelled
exactly as a rational) or NaN. Infinities are not needed for the claims
settled here. Arithmetic propagates NaN; every ordered comparison with NaN
is false, as in IEEE 754. -/
inductive PyFloat
  | fin (q : ℚ)
  | nan
deriving DecidableEq, Repr

namespace PyFloat

def add : PyFloat → PyFloat → PyFloat
  | fin a, fin b => fin (a + b)
  | _, _ => nan

def sub : PyFloat → PyFloat → PyFloat
  | fin a, fin b => fin (a - b)
  | _, _ => nan

def mul : PyFloat → PyFloat → PyFloat
  | fin a, fin b => fin (a * b)
  | _, _ => nan

def neg : PyFloat → PyFloat
  | fin a => fin (-a)
  | nan => nan

/-- Python float division; division of finite by zero raises
ZeroDivisionError (modelled none). -/
def div : PyFloat → PyFloat → Option PyFloat
  | fin a, fin b => if b = 0 then none else some (fin (a / b))
  | _, _ => some nan

def fabs : PyFloat → PyFloat
  | fin a => fin |a|
  | nan => nan

/-- Python ==: NaN compares unequal to everything, itself included. -/
def beq : PyFloat → PyFloat → Bool
  | fin a, fin b => decide (a = b)
  | _, _ => false

/-- Python <: false whenever either side is NaN. -/
def blt : PyFloat → PyFloat → Bool
  | fin a, fin b => decide (a < b)
  | _, _ => false

/-- Python <=: false whenever either side is NaN. -/
def ble : PyFloat → PyFloat → Bool
  | fin a, fin b => decide (a ≤ b)
  | _, _ => false

/-- Python >: false whenever either side is NaN. -/
def bgt (x y : PyFloat) : Bool := blt y x

end PyFloat

/-- Float-level embedding of _text_point_at_line_end, tracking NaN the way
Python floats do; none models a raised exception. -/
def _text_point_at_line_end_f (size p1 p2 : PyFloat × PyFloat) :
    Option (PyFloat × PyFloat) := do
  let ofs : PyFloat := .fin 5
  let dx := PyFloat.sub p2.1 p1.1
  let dy := PyFloat.sub p2.2 p1.2
  let name_w := size.1
  let name_h := size.2
  let rc : PyFloat ←
    if PyFloat.beq dy (.fin 0) then some (.fin 1000) else PyFloat.div dx dy
  let abs_rc := PyFloat.fabs rc
  let h := PyFloat.bgt dx (.fin 0)
  let v := PyFloat.bgt dy (.fin 0)
  let name_d : PyFloat × PyFloat :=
    if PyFloat.bgt abs_rc (.fin 6) then
      if h then (ofs, PyFloat.sub (PyFloat.neg ofs) name_h)
      else (PyFloat.sub (PyFloat.neg ofs) name_w,
            PyFloat.sub (PyFloat.neg ofs) name_h)
    else if PyFloat.ble (.fin 0) abs_rc && PyFloat.ble abs_rc (.fin 0.2) then
      if v then (PyFloat.sub (PyFloat.neg ofs) name_w, ofs)
      else (PyFloat.sub (PyFloat.neg ofs) name_w,
            PyFloat.sub (PyFloat.neg ofs) name_h)
    else
      let r := PyFloat.blt abs_rc (.fin 1)
      let align_left := xor h r
      let align_bottom := xor v r
      ((if align_left then ofs else PyFloat.sub (PyFloat.neg ofs) name_w),
       (if align_bottom then PyFloat.sub (PyFloat.neg ofs) name_h else ofs))
  some (PyFloat.add p1.1 name_d.1, PyFloat.add p1.2 name_d.2)

/-- Float-level embedding of _text_point_at_line_center. -/
def _text_point_at_line_center_f (size p1 p2 : PyFloat × PyFloat) :
    Option (PyFloat × PyFloat) := do
  let two : PyFloat := .fin 2
  let x0 ← PyFloat.div (PyFloat.add p1.1 p2.1) two
  let y0 ← PyFloat.div (PyFloat.add p1.2 p2.2) two
  let dx := PyFloat.sub p2.1 p1.1
  let dy := PyFloat.sub p2.2 p1.2
  let ofs : PyFloat := .fin 3
  let eps : PyFloat := .fin EPSILON
  let d : PyFloat × PyFloat ←
    if PyFloat.blt (PyFloat.fabs dx) eps then some (.fin (-1), .fin 1)
    else if PyFloat.blt (PyFloat.fabs dy) eps then some (.fin 0, .fin 0)
    else do
      let d1 ← PyFloat.div dy dx
      some (d1, PyFloat.fabs d1)
  let d1 := d.1
  let d2 := d.2
  let width := size.1
  let height := size.2
  if PyFloat.blt d2 (.fin 0.5774) then do
    let w2 ← PyFloat.div width two
    let hint := PyFloat.mul w2 d2
    some (PyFloat.sub x0 w2, PyFloat.add (PyFloat.add y0 hint) ofs)
  else do
    let h2 ← PyFloat.div height two
    let q : Int :=
      (if PyFloat.bgt d1 (.fin 0) then 1 else 0) -
      (if PyFloat.blt d1 (.fin 0) then 1 else 0)
    let hint : PyFloat ←
      if PyFloat.blt (PyFloat.fabs dx) eps then some (.fin 0)
      else PyFloat.div h2 d2
    match pyIdx WIDTH_HINT q, pyIdx PADDING_HINT q with
    | some wh, some ph =>
      some (PyFloat.add
              (PyFloat.sub x0 (PyFloat.mul (PyFloat.add ofs hint) (.fin ph)))
              (PyFloat.mul width (.fin wh)),
            PyFloat.sub y0 h2)
    | _, _ => none

/-- Float-level embedding of text_point_at_line, mirroring the rational one
but with Python float coordinates. -/
def text_point_at_line_f (points : List (PyFloat × PyFloat))
    (size : PyFloat × PyFloat) (text_align : Option TextAlign) :
    Option (PyFloat × PyFloat) :=
  if text_align = some TextAlign.LEFT then
    match pyIdx points 0, pyIdx points 1 with
    | some p0, some p1 => _text_point_at_line_end_f size p0 p1
    | _, _ => none
  else if text_align = some TextAlign.CENTER then
    match middle_segment points with
    | some pq => _text_point_at_line_center_f size pq.1 pq.2
    | none => none
  else if text_align = some TextAlign.RIGHT then
    match pyIdx points (-1), pyIdx points (-2) with
    | some p0, some p1 => _text_point_at_line_end_f size p0 p1
    | _, _ => none
  else none

/-- Kind of a property registration in coremodel.py: a stored association or
a derived union. -/
inductive PropKind
  | association
  | derivedunion
deriving DecidableEq, Repr

/-- One property registration of gaphor/core/modeling/coremodel.py: owning
class, property name, kind, target type, upper bound (none means unbounded),
composite flag and opposite name. -/
structure PropDecl where
  klass : String
  pname : String
  kind : PropKind
  target : String
  upper : Option Nat
  composite : Bool
  opposite : Option String
deriving DecidableEq, Repr

/-- The module-level property registrations of coremodel.py, one entry per
statement, in source order. -/
def coremodelDecls : List PropDecl :=
  [ ⟨"Element", "ownedElement", .derivedunion, "Element", none, false, none⟩,
    ⟨"Element", "owner", .derivedunion, "Element", some 1, false, none⟩,
    ⟨"Element", "presentation", .association, "Presentation", none, true,
      some "subject"⟩,
    ⟨"Element", "ownedDiagram", .association, "Diagram", none, true,
      some "element"⟩,
    ⟨"Element", "comment", .association, "Comment", none, false,
      some "annotatedElement"⟩,
    ⟨"Diagram", "ownedPresentation", .association, "Presentation", none, true,
      some "diagram"⟩,
    ⟨"Diagram", "element", .association, "Element", some 1, false,
      some "ownedDiagram"⟩,
    ⟨"Presentation", "parent", .association, "Presentation", some 1, false,
      some "children"⟩,
    ⟨"Presentation", "children", .association, "Presentation", none, true,
      some "parent"⟩,
    ⟨"Presentation", "diagram", .association, "Diagram", some 1, false,
      some "ownedPresentation"⟩,
    ⟨"Presentation", "subject", .association, "Element", some 1, false,
      some "presentation"⟩,
    ⟨"Comment", "annotatedElement", .association, "Element", none, false,
      some "comment"⟩ ]

/-- The derived-union contributor registrations of coremodel.py: the two
".add" calls, in source order. Each pair maps a derived union (class,
property) to a registered contributing association (class, property). -/
def derivedunionAdds : List ((String × String) × (String × String)) :=
  [ (("Element", "ownedElement"), ("Element", "ownedDiagram")),
    (("Element", "owner"), ("Diagram", "element")) ]

/-- The contributors registered for a derived union, in registration order. -/
def contributorsOf (u : String × String) : List (String × String) :=
  (derivedunionAdds.filter (fun r => r.1 = u)).map (fun r => r.2)

/-- Modelled from the spec: the derivedunion read machinery lives in
gaphor/core/modeling/properties.py, which is not under src/. Per the spec, a
derived union is never stored on the instance; reading it always computes
the union of the values of its registered contributing associations,
contributors taken in registration order, each contributor preserving its
own order, duplicates removed by identity. The state st maps each stored
association (class, property) to the list of values (element identities)
held by the instance. -/
def readDerivedUnion (st : String × String → List Nat)
    (u : String × String) : List Nat :=
  (((contributorsOf u).map st).flatten).dedup

/-- Code model of the FontWeight enumeration (gaphor.core.styling). -/
inductive FontWeight
  | NORMAL
  | BOLD
deriving DecidableEq, Repr

/-- Code model of the FontStyle enumeration (gaphor.core.styling). -/
inductive FontStyle
  | NORMAL
  | ITALIC
deriving DecidableEq, Repr

/-- Code model of the TextDecoration enumeration (gaphor.core.styling). -/
inductive TextDecoration
  | NONE
  | UNDERLINE
deriving DecidableEq, Repr

/-- Code model of a Style mapping as Layout.set_font reads it: each
font-related key either present (some) or absent (none, Python None from
font.get). -/
structure Style where
  font_family : Option String
  font_size : Option ℚ
  font_weight : Option FontWeight
  font_style : Option FontStyle
  text_decoration : Option TextDecoration
deriving DecidableEq, Repr

/-- Pango.SCALE. -/
def SCALE : ℚ := 1024

/-- Python int(): truncation toward zero. -/
def pyInt (q : ℚ) : Int := if 0 ≤ q then ⌊q⌋ else ⌈q⌉

/-- Code model of a Pango font description as built by Layout.set_font:
family, absolute size (already multiplied by Pango.SCALE), and the optional
weight and style that set_font copies over when present. -/
structure FontDescription where
  family : String
  absolute_size : ℚ
  weight : Option FontWeight
  style : Option FontStyle
deriving DecidableEq, Repr

/-- Code model of the state of the underlying Pango layout that the Layout
class mutates: the installed font description, the content last pushed by
update_text (the text, and whether it was wrapped in underline markup), the
layout width and the alignment. -/
structure PangoLayoutState where
  font_description : Option FontDescription
  content : String
  content_underlined : Bool
  pwidth : Int
  alignment : TextAlign
deriving DecidableEq, Repr

/-- Embedding of the state of gaphor.diagram.text.Layout: the wrapped Pango
layout plus the attributes __init__ assigns. -/
structure Layout where
  layout : PangoLayoutState
  underline : Bool
  font_id : Option (String × ℚ × Option FontWeight × Option FontStyle)
  text : String
  width : ℚ
  default_size : ℚ × ℚ
deriving DecidableEq, Repr

/-- Embedding of Layout.update_text: push the current text to the Pango
layout, as underline markup when the underline flag is set (the GLib markup
escaping is external and the content is modelled abstractly as the text
plus the underline flag). -/
def Layout.update_text (l : Layout) : Layout :=
  if l.underline then
    { l with layout :=
        { l.layout with content := l.text, content_underlined := true } }
  else
    { l with layout :=
        { l.layout with content := l.text, content_underlined := false } }

/-- Embedding of Layout.set_text. -/
def Layout.set_text (l : Layout) (text : String) : Layout :=
  if text ≠ l.text then
    Layout.update_text { l with text := text }
  else l

/-- Embedding of Layout.set_width. -/
def Layout.set_width (l : Layout) (width : ℚ) : Layout :=
  let l := { l with width := width }
  if width = -1 then { l with layout := { l.layout with pwidth := -1 } }
  else { l with layout := { l.layout with pwidth := pyInt (width * SCALE) } }

/-- Embedding of Layout.set_font. The two asserts (a truthy font family and
a truthy font size) raise AssertionError on falsy values (modelled none).
The returned Bool reports whether a font description was rebuilt and
installed, i.e. whether the early return on an unchanged font id was NOT
taken; it models the call counter the spec mentions. -/
def Layout.set_font (l : Layout) (font : Style) :
    Option (Layout × Bool) :=
  match font.font_family, font.font_size with
  | some font_family, some font_size =>
    if font_family = "" then none
    else if font_size = 0 then none
    else
      let font_id := (font_family, font_size, font.font_weight,
                      font.font_style)
      if l.font_id = some font_id then some (l, false)
      else
        let l := { l with font_id := some font_id }
        let fd : FontDescription :=
          { family := font_family, absolute_size := font_size * SCALE,
            weight := font.font_weight, style := font.font_style }
        let l := { l with layout :=
                    { l.layout with font_description := some fd } }
        let underline : Bool :=
          decide (font.text_decoration.getD TextDecoration.NONE =
                    TextDecoration.UNDERLINE)
        if l.underline ≠ underline then
          some (Layout.update_text { l with underline := underline }, true)
        else some (l, true)
  | _, _ => none

/-- Embedding of Layout.size, parametrised by the external Pango measurement
of a laid-out text (measure): with empty text the configured default size is
returned; otherwise the width is re-applied and the Pango pixel size is
measured. The returned Layout is the post-call state. -/
def Layout.size (measure : PangoLayoutState → ℚ × ℚ) (l : Layout) :
    Layout × (ℚ × ℚ) :=
  if l.text = "" then (l, l.default_size)
  else
    let l := Layout.set_width l l.width
    (l, measure l.layout)

/-- The three-way sign q of d1 computed by the near-vertical branch of
_text_point_at_line_center, as the claims describe it. -/
def center_q (p1 p2 : Point) : Int :=
  (if center_d1 p1 p2 > 0 then 1 else 0) - (if center_d1 p1 p2 < 0 then 1 else 0)

/-- A concrete Layout state with empty text and default size (7, 8), used to
instantiate the Layout theorems. -/
def sampleLayout : Layout :=
  ⟨⟨none, "", false, -1, TextAlign.CENTER⟩, false, none, "", -1, (7, 8)⟩

/-- A concrete Layout state whose font id is already ("sans", 12, none,
none), used to instantiate the set_font theorem. -/
def sampleFontLayout : Layout :=
  ⟨⟨none, "", false, -1, TextAlign.CENTER⟩, false,
    some ("sans", 12, none, none), "", -1, (0, 0)⟩

/-- A concrete font style mapping: family sans, size 12, no weight, style or
decoration keys. -/
def sampleFont : Style := ⟨some "sans", some 12, none, none, none⟩

/-! Helper lemmas about the Python indexing model. -/

theorem pyIdx_zero {α : Type} (xs : List α) (h : 0 < xs.length) :
    pyIdx xs 0 = some xs[0] := by
  simp [pyIdx, List.getElem?_eq_getElem, h]

theorem pyIdx_one {α : Type} (xs : List α) (h : 1 < xs.length) :
    pyIdx xs 1 = some xs[1] := by
  simp [pyIdx, List.getElem?_eq_getElem, h]

theorem pyIdx_neg_one {α : Type} (xs : List α) (h : 0 < xs.length) :
    pyIdx xs (-1) = some xs[xs.length - 1] := by
  have h1 : ¬ ((0:Int) ≤ -1) := by omega
  have h2 : -(xs.length : Int) ≤ -1 := by omega
  have h3 : ((-1) + (xs.length : Int)).toNat = xs.length - 1 := by omega
  simp only [pyIdx, h1, if_false, h2, if_true, if_pos h2, h3]
  exact List.getElem?_eq_getElem (by omega)

theorem pyIdx_neg_two {α : Type} (xs : List α) (h : 2 ≤ xs.length) :
    pyIdx xs (-2) = some xs[xs.length - 2] := by
  have h1 : ¬ ((0:Int) ≤ -2) := by omega
  have h2 : -(xs.length : Int) ≤ -2 := by omega
  have h3 : ((-2) + (xs.length : Int)).toNat = xs.length - 2 := by omega
  simp only [pyIdx, h1, if_false, if_pos h2, h3]
  exact List.getElem?_eq_getElem (by omega)

/-! Helper lemmas about the center-placement classification. -/

theorem center_classify (p1 p2 : Point) :
    (if |p2.1 - p1.1| < EPSILON then ((-1 : ℚ), (1 : ℚ))
     else if |p2.2 - p1.2| < EPSILON then (0, 0)
     else ((p2.2 - p1.2) / (p2.1 - p1.1), |(p2.2 - p1.2) / (p2.1 - p1.1)|)) =
    (center_d1 p1 p2, center_d2 p1 p2) := by
  simp only [center_d1, center_d2]
  split_ifs <;> rfl

theorem center_q_cases (p1 p2 : Point) :
    center_q p1 p2 = -1 ∨ center_q p1 p2 = 0 ∨ center_q p1 p2 = 1 := by
  unfold center_q
  split_ifs <;> omega

theorem center_eq_cases (size : Size) (p1 p2 : Point) :
    _text_point_at_line_center size p1 p2 =
      if center_d2 p1 p2 < 0.5774 then
        some ((p1.1 + p2.1) / 2 - size.1 / 2,
              (p1.2 + p2.2) / 2 + size.1 / 2 * center_d2 p1 p2 + 3)
      else
        some ((p1.1 + p2.1) / 2 -
                (3 + center_vertical_hint size.2 p1 p2) *
                  padding_hint_at (center_q p1 p2) +
                size.1 * width_hint_at (center_q p1 p2),
              (p1.2 + p2.2) / 2 - size.2 / 2) := by
  simp only [_text_point_at_line_center]
  rw [center_classify]
  dsimp only
  have hcq : ((if center_d1 p1 p2 > 0 then (1 : Int) else 0) -
      (if center_d1 p1 p2 < 0 then (1 : Int) else 0)) = center_q p1 p2 := rfl
  by_cases hlt : center_d2 p1 p2 < 0.5774
  · rw [if_pos hlt, if_pos hlt]
  · rw [if_neg hlt, if_neg hlt, hcq]
    rcases center_q_cases p1 p2 with h | h | h <;> rw [h] <;> rfl

theorem update_text_font_id (l : Layout) :
    (Layout.update_text l).font_id = l.font_id := by
  rw [Layout.update_text]
  split_ifs <;> rfl

theorem one_div_sqrt_three_lt : (1 : ℝ) / Real.sqrt 3 < 0.5774 := by
  have h0 : (0:ℝ) < 1 / 0.5774 := by norm_num
  have h1 : (1 : ℝ) / 0.5774 < Real.sqrt 3 := by
    rw [show (3:ℝ) = 3 by norm_num, Real.lt_sqrt (by norm_num)]
    norm_num
  have h2 := one_div_lt_one_div_of_lt h0 h1
  rw [one_div_one_div] at h2
  exact h2

/-- Claim C1: for every polyline of at least 2 points and every text size,
text_point_at_line with LEFT alignment anchors via the endpoint placement on
the segment (points[0], points[1]) near points[0], and with RIGHT on
(points[-1], points[-2]) near points[-1] (segment in reverse order); the
endpoint placement classifies rc = dx/dy (sentinel 1000 when dy = 0) into
the three regimes described by the claim (restated verbatim in
text_point_at_line_end_spec); and in particular
text_point_at_line [(0,0),(100,0)] (20,10) LEFT = (5, -15). -/
theorem C1_text_point_at_line_end_placement :
    (∀ (points : List Point) (size : Size) (h : 2 ≤ points.length),
        text_point_at_line points size (some TextAlign.LEFT) =
          some (_text_point_at_line_end size points[0] points[1]) ∧
        text_point_at_line points size (some TextAlign.RIGHT) =
          some (_text_point_at_line_end size points[points.length - 1]
                  points[points.length - 2])) ∧
    (∀ (size : Size) (p1 p2 : Point),
        _text_point_at_line_end size p1 p2 =
          text_point_at_line_end_spec size p1 p2) ∧
    text_point_at_line [((0:ℚ), (0:ℚ)), (100, 0)] (20, 10)
        (some TextAlign.LEFT) = some (5, -15) := by
  refine ⟨fun points size h => ⟨?_, ?_⟩, fun size p1 p2 => ?_, ?_⟩
  · rw [text_point_at_line, if_pos rfl, pyIdx_zero points (by omega),
      pyIdx_one points (by omega)]
  · rw [text_point_at_line]
    rw [if_neg (by simp), if_neg (by simp), if_pos rfl,
      pyIdx_neg_one points (by omega), pyIdx_neg_two points h]
  · simp only [_text_point_at_line_end, text_point_at_line_end_spec]
    simp only [abs_nonneg, true_and, decide_eq_true_eq]
  · simp [text_point_at_line, pyIdx, _text_point_at_line_end]
    norm_num

/-- Witness for C1 at a concrete three-point polyline, RIGHT alignment. -/
theorem C1_witness :
    text_point_at_line [((0:ℚ), (0:ℚ)), (0, 100), (0, 200)] (7, 9)
        (some TextAlign.RIGHT) =
      some (_text_point_at_line_end (7, 9) (0, 200) (0, 100)) :=
  (C1_text_point_at_line_end_placement.1 [(0, 0), (0, 100), (0, 200)] (7, 9)
    (by decide)).2

/-- Claim C2: focus_box_pos returns the top-left anchor whose horizontal
offset from x is 0 for LEFT, (w-tw)/2 for CENTER, w-tw for RIGHT, and whose
vertical offset from y is always (h-th)/2; in particular
focus_box_pos ((0,0,100,20), (40,10), CENTER) = (30, 5) and with LEFT
(0, 5). -/
theorem C2_focus_box_pos_alignment :
    (∀ x y width height tw th : ℚ,
        focus_box_pos (x, y, width, height) (tw, th) TextAlign.LEFT =
          (x, y + (height - th) / 2) ∧
        focus_box_pos (x, y, width, height) (tw, th) TextAlign.CENTER =
          (x + (width - tw) / 2, y + (height - th) / 2) ∧
        focus_box_pos (x, y, width, height) (tw, th) TextAlign.RIGHT =
          (x + (width - tw), y + (height - th) / 2)) ∧
    focus_box_pos (0, 0, 100, 20) (40, 10) TextAlign.CENTER = (30, 5) ∧
    focus_box_pos (0, 0, 100, 20) (40, 10) TextAlign.LEFT = (0, 5) := by
  refine ⟨fun x y width height tw th => ⟨?_, ?_, ?_⟩, ?_, ?_⟩ <;>
    simp [focus_box_pos] <;> norm_num

/-- Claim C3: in the near-vertical branch of _text_point_at_line_center
(d2 at or above the 0.5774 threshold) the second assignment to x overwrites
the first (removing the first assignment does not change the function), and
the result is x0 - (3 + hint) * PADDING_HINT[q] + width * WIDTH_HINT[q]
with q = sign d1 and hint = 0 for near-vertical dx, (height/2)/d2
otherwise, and y = y0 - height/2. -/
theorem C3_center_vertical_overwrite :
    (∀ (size : Size) (p1 p2 : Point),
        _text_point_at_line_center_nofirst size p1 p2 =
          _text_point_at_line_center size p1 p2) ∧
    (∀ (size : Size) (p1 p2 : Point),
        0.5774 ≤ center_d2 p1 p2 →
        _text_point_at_line_center size p1 p2 =
          some ((p1.1 + p2.1) / 2 -
                  (3 + center_vertical_hint size.2 p1 p2) *
                    padding_hint_at (center_q p1 p2) +
                  size.1 * width_hint_at (center_q p1 p2),
                (p1.2 + p2.2) / 2 - size.2 / 2)) := by
  refine ⟨fun size p1 p2 => rfl, fun size p1 p2 h => ?_⟩
  rw [center_eq_cases, if_neg (not_lt.mpr h)]

/-- Witness for C3 at the vertical segment (0,0)-(0,10) with size (20,10). -/
theorem C3_witness :
    _text_point_at_line_center ((20:ℚ), (10:ℚ)) (0, 0) (0, 10) =
      some (3, 0) := by
  have h := C3_center_vertical_overwrite.2 (20, 10) (0, 0) (0, 10)
    (by norm_num [center_d2, EPSILON])
  rw [h]
  norm_num [center_vertical_hint, center_q, center_d1, center_d2, EPSILON,
    padding_hint_at, width_hint_at]

/-- Claim C4: for every segment whose classified slope magnitude d2 is below
1/sqrt 3, _text_point_at_line_center returns the midpoint shifted left by
width/2 and offset below by width/2 * d2 + 3. -/
theorem C4_center_horizontal_band :
    ∀ (size : Size) (p1 p2 : Point),
      (center_d2 p1 p2 : ℝ) < 1 / Real.sqrt 3 →
      _text_point_at_line_center size p1 p2 =
        some ((p1.1 + p2.1) / 2 - size.1 / 2,
              (p1.2 + p2.2) / 2 + size.1 / 2 * center_d2 p1 p2 + 3) := by
  intro size p1 p2 h
  have hq : center_d2 p1 p2 < (0.5774 : ℚ) := by
    have hr : (center_d2 p1 p2 : ℝ) < 0.5774 := h.trans one_div_sqrt_three_lt
    have hc : ((0.5774 : ℚ) : ℝ) = (0.5774 : ℝ) := by norm_num
    rw [← hc] at hr
    exact_mod_cast hr
  rw [center_eq_cases, if_pos hq]

/-- Witness for C4 at the segment (0,0)-(2,1) (d2 = 1/2) with size (20,10). -/
theorem C4_witness :
    _text_point_at_line_center ((20:ℚ), (10:ℚ)) (0, 0) (2, 1) =
      some (-9, 17 / 2) := by
  have hd : center_d2 ((0:ℚ), (0:ℚ)) (2, 1) = 1 / 2 := by
    norm_num [center_d2, EPSILON]
  have hs3 : Real.sqrt 3 < 2 :=
    (Real.sqrt_lt' (by norm_num)).mpr (by norm_num)
  have hhalf : ((center_d2 ((0:ℚ), (0:ℚ)) (2, 1) : ℚ) : ℝ) <
      1 / Real.sqrt 3 := by
    rw [hd]
    have := one_div_lt_one_div_of_lt (Real.sqrt_pos.mpr (by norm_num)) hs3
    calc ((((1:ℚ) / 2) : ℚ) : ℝ) = 1 / 2 := by norm_num
    _ < 1 / Real.sqrt 3 := this
  have h := C4_center_horizontal_band (20, 10) (0, 0) (2, 1) hhalf
  rw [h, hd]
  norm_num

/-- Claim C5: for every list of at least 2 points, middle_segment returns
the adjacent pair at index floor(n/2) - 1 and floor(n/2), whose index
satisfies 1 <= floor(n/2) < n; in particular on [(0,0),(1,1),(2,2)] it
returns ((0,0),(1,1)), and on a single-point list it fails. -/
theorem C5_middle_segment_pair :
    (∀ (points : List Point) (h : 2 ≤ points.length),
        middle_segment points =
          some (points[points.length / 2 - 1], points[points.length / 2]) ∧
        1 ≤ points.length / 2 ∧ points.length / 2 < points.length) ∧
    middle_segment [((0:ℚ), (0:ℚ)), (1, 1), (2, 2)] = some ((0, 0), (1, 1)) ∧
    (∀ p : Point, middle_segment [p] = none) := by
  refine ⟨fun points h => ⟨?_, by omega, by omega⟩, by rfl,
    fun p => by simp [middle_segment]⟩
  have hc : 1 ≤ points.length / 2 ∧ points.length / 2 < points.length := by
    omega
  simp only [middle_segment, dif_pos hc, List.get_eq_getElem]

/-- Witness for C5 at a concrete four-point polyline. -/
theorem C5_witness :
    middle_segment [((0:ℚ), (0:ℚ)), (1, 1), (2, 2), (3, 3)] =
      some ((1, 1), (2, 2)) := by
  have h := (C5_middle_segment_pair.1 [(0, 0), (1, 1), (2, 2), (3, 3)]
    (by decide)).1
  simpa using h

/-- Claim C6, amended: with fewer than 2 points text_point_at_line fails
(IndexError from indexing, or AssertionError inside middle_segment; the code
defines no InvalidGeometryError), for any alignment value; and points with
non-finite coordinates are NOT rejected: the computation silently propagates
NaN into the returned placement, as the final conjunct shows on the input
[(0, nan), (1, 1)]. -/
theorem C6_short_input_fails_nan_propagates :
    (∀ (points : List Point) (size : Size) (ta : Option TextAlign),
        points.length < 2 → text_point_at_line points size ta = none) ∧
    (∀ (points : List (PyFloat × PyFloat)) (size : PyFloat × PyFloat)
        (ta : Option TextAlign),
        points.length < 2 → text_point_at_line_f points size ta = none) ∧
    text_point_at_line_f [(.fin 0, PyFloat.nan), (.fin 1, .fin 1)]
        (.fin 20, .fin 10) (some TextAlign.LEFT) =
      some (.fin 5, PyFloat.nan) := by
  refine ⟨?_, ?_, ?_⟩
  · intro points size ta h
    rcases points with _ | ⟨p, _ | ⟨q, rest⟩⟩
    · rcases ta with _ | a
      · rfl
      · cases a <;> rfl
    · rcases ta with _ | a
      · rfl
      · cases a <;> first | rfl | simp [text_point_at_line, middle_segment]
    · simp at h
      omega
  · intro points size ta h
    rcases points with _ | ⟨p, _ | ⟨q, rest⟩⟩
    · rcases ta with _ | a
      · rfl
      · cases a <;> rfl
    · rcases ta with _ | a
      · rfl
      · cases a <;> first | rfl | simp [text_point_at_line_f, middle_segment]
    · simp at h
      omega
  · simp [text_point_at_line_f, pyIdx, _text_point_at_line_end_f, PyFloat.sub,
      PyFloat.beq, PyFloat.div, PyFloat.fabs, PyFloat.bgt, PyFloat.blt,
      PyFloat.ble, PyFloat.neg, PyFloat.add]

/-- Counterexample to claim C6 as stated: on the malformed input
[(nan, 0), (1, 1)] (a non-finite coordinate) with size (20, 10) and LEFT
alignment, text_point_at_line does not fail at all: it returns the
placement (nan, -15), i.e. a NaN placement instead of an
InvalidGeometryError. -/
theorem C6_nonfinite_returns_nan :
    text_point_at_line_f [(PyFloat.nan, .fin 0), (.fin 1, .fin 1)]
        (.fin 20, .fin 10) (some TextAlign.LEFT) =
      some (PyFloat.nan, .fin (-15)) ∧
    text_point_at_line_f [(PyFloat.nan, .fin 0), (.fin 1, .fin 1)]
        (.fin 20, .fin 10) (some TextAlign.LEFT) ≠ none := by
  have h1 : text_point_at_line_f [(PyFloat.nan, .fin 0), (.fin 1, .fin 1)]
      (.fin 20, .fin 10) (some TextAlign.LEFT) =
      some (PyFloat.nan, .fin (-15)) := by
    simp [text_point_at_line_f, pyIdx, _text_point_at_line_end_f, PyFloat.sub,
      PyFloat.beq, PyFloat.div, PyFloat.fabs, PyFloat.bgt, PyFloat.blt,
      PyFloat.ble, PyFloat.neg, PyFloat.add]
    norm_num
  refine ⟨h1, ?_⟩
  rw [h1]
  simp

/-- Witness for the amended C6 at the concrete one-point list [(5, 5)]. -/
theorem C6_witness :
    text_point_at_line [((5:ℚ), (5:ℚ))] (20, 10) (some TextAlign.CENTER) =
      none :=
  C6_short_input_fails_nan_propagates.1 [(5, 5)] (20, 10)
    (some TextAlign.CENTER) (by decide)

/-- Claim C7: ownedElement and owner are registered as derived unions (the
only derived, never-stored properties of the schema); the contributors
registered for ownedElement are exactly ownedDiagram (in particular
presentation is not a contributor), owner (upper bound 1) has Diagram.element
as its only contributor, and reading a derived union always computes the
union of its registered contributors (read semantics modelled from the
spec, see readDerivedUnion). -/
theorem C7_derived_union_registrations :
    ((⟨"Element", "ownedElement", PropKind.derivedunion, "Element", none,
        false, none⟩ : PropDecl) ∈ coremodelDecls) ∧
    ((⟨"Element", "owner", PropKind.derivedunion, "Element", some 1, false,
        none⟩ : PropDecl) ∈ coremodelDecls) ∧
    (∀ d ∈ coremodelDecls, d.kind = PropKind.derivedunion →
        (d.klass = "Element" ∧ d.pname = "ownedElement") ∨
        (d.klass = "Element" ∧ d.pname = "owner")) ∧
    contributorsOf ("Element", "ownedElement") =
      [("Element", "ownedDiagram")] ∧
    (("Element", "presentation") ∉ contributorsOf ("Element", "ownedElement")) ∧
    contributorsOf ("Element", "owner") = [("Diagram", "element")] ∧
    (∀ st : String × String → List Nat,
        readDerivedUnion st ("Element", "ownedElement") =
          (st ("Element", "ownedDiagram")).dedup ∧
        readDerivedUnion st ("Element", "owner") =
          (st ("Diagram", "element")).dedup) := by
  refine ⟨by decide, by decide, by decide, by decide, by decide, by decide,
    fun st => ⟨?_, ?_⟩⟩
  · have hc : contributorsOf ("Element", "ownedElement") =
        [("Element", "ownedDiagram")] := by decide
    rw [readDerivedUnion, hc]
    simp
  · have hc : contributorsOf ("Element", "owner") =
        [("Diagram", "element")] := by decide
    rw [readDerivedUnion, hc]
    simp

/-- Witness for C7 at the concrete ownedElement declaration. -/
theorem C7_witness :
    ("Element" = "Element" ∧ "ownedElement" = "ownedElement") ∨
      ("Element" = "Element" ∧ "ownedElement" = "owner") := by
  have h := C7_derived_union_registrations.2.2.1
    ⟨"Element", "ownedElement", PropKind.derivedunion, "Element", none,
      false, none⟩ (by decide) (by decide)
  simpa using h

/-- Claim C8: for every Layout whose text is empty, size() returns the
configured default (fallback) size rather than a measured (0, 0). -/
theorem C8_size_empty_returns_default :
    ∀ (measure : PangoLayoutState → ℚ × ℚ) (l : Layout),
      l.text = "" → (Layout.size measure l).2 = l.default_size := by
  intro measure l h
  simp [Layout.size, h]

/-- Witness for C8 at a concrete empty-text layout with default size (7, 8). -/
theorem C8_witness :
    (Layout.size (fun _ => ((0:ℚ), (0:ℚ))) sampleLayout).2 = (7, 8) :=
  C8_size_empty_returns_default (fun _ => (0, 0)) sampleLayout rfl

/-- Claim C9: set_font is idempotent: after any successful set_font call,
calling set_font again with the identical font spec takes the early return
on the unchanged (family, size, weight, style) font id, performing no
second font-description rebuild (the Bool is false) and leaving the layout
state unchanged. -/
theorem C9_set_font_idempotent :
    ∀ (l : Layout) (font : Style) (l1 : Layout) (b : Bool),
      Layout.set_font l font = some (l1, b) →
      Layout.set_font l1 font = some (l1, false) := by
  intro l font l1 b h
  rcases hfam : font.font_family with _ | fam
  · rw [Layout.set_font, hfam] at h
    cases h
  rcases hsz : font.font_size with _ | fsize
  · rw [Layout.set_font, hfam, hsz] at h
    cases h
  rw [Layout.set_font, hfam, hsz] at h
  dsimp only at h
  by_cases hfe : fam = ""
  · rw [if_pos hfe] at h
    cases h
  rw [if_neg hfe] at h
  by_cases hse : fsize = 0
  · rw [if_pos hse] at h
    cases h
  rw [if_neg hse] at h
  have hid : l1.font_id =
      some (fam, fsize, font.font_weight, font.font_style) := by
    by_cases hsame :
        l.font_id = some (fam, fsize, font.font_weight, font.font_style)
    · rw [if_pos hsame] at h
      cases h
      exact hsame
    · rw [if_neg hsame] at h
      split_ifs at h with hu
      · cases h
        rw [update_text_font_id]
      · cases h
        rfl
  rw [Layout.set_font, hfam, hsz]
  dsimp only
  rw [if_neg hfe, if_neg hse, if_pos hid]

/-- Witness for C9 at a concrete layout whose font id already matches the
concrete font spec. -/
theorem C9_witness :
    Layout.set_font sampleFontLayout sampleFont =
      some (sampleFontLayout, false) :=
  C9_set_font_idempotent sampleFontLayout sampleFont sampleFontLayout false
    rfl

/-- Claim C10: for every points list and text size, calling
text_point_at_line with an alignment value that is none of LEFT, CENTER or
RIGHT (modelled by the none alignment argument) fails: the result
coordinates are never assigned before the return, raising
UnboundLocalError. -/
theorem C10_invalid_align_fails :
    ∀ (points : List Point) (size : Size),
      text_point_at_line points size none = none := by
  intro points size
  rfl
